import Mathlib

/-!
Shallow embedding of `src/src/ipset.c` (apfree_wifidog): construction of
netlink ipset command messages and the bounded-retry send loop.

Modelling conventions:
- The C byte buffer (`char buffer[BUFF_SZ] = {0}`) is modelled structurally:
  the fixed message header (`struct nlmsghdr`) and family sub-header
  (`struct my_nfgenmsg`) become fields of `MsgBuf`, and every attribute
  record written into the buffer becomes a `WrittenAttr` carrying the byte
  offset at which its header was placed.  On the x86-64/ARM Linux ABI the
  struct sizes are sizeof(struct nlmsghdr) = 16, sizeof(struct my_nfgenmsg)
  = 4, sizeof(struct my_nlattr) = 4; these appear as `NLMSGHDR_SZ`,
  `NFGENMSG_SZ`, `NLATTR_SZ`.
- 16-bit stores (`nla_len`, `nla_type`, `nlmsg_type`) truncate mod 2^16 and
  the 8-bit store `nfgen_family` truncates mod 2^8, as in C.  `nlmsg_len`
  is a u32, but every increment in this file is `NL_ALIGN` of a u16 value
  (at most 2^16) and the builders perform at most five increments from a
  start of 16, so the u32 never wraps; it is modelled as a plain Nat.
- A C string argument (`const char *setname`) is an `Option (List Nat)`:
  `none` is a NULL pointer, `some bs` a string whose bytes before the NUL
  terminator are `bs`.  `strlen` applied to NULL is undefined behavior in
  C; where the code calls `strlen(setname)` without a null check, the
  `none` case is modelled as the distinguished outcome `CallErr.nullDeref`.
- The builders return `Except CallErr MsgBuf`: `Except.error` models the
  early `return -1` paths taken before the `sendto` call (so no socket
  write happens), and `Except.ok m` models reaching the send loop with the
  finished message `m`.  The send itself and `errno` are external to the
  encoding layer; the retry logic is modelled separately by `retry_send`
  and `send_loop` over an abstract stream of send outcomes.
-/

namespace Ipset

/-- C macro NFNL_SUBSYS_IPSET = 6. -/
def NFNL_SUBSYS_IPSET : Nat := 6

/-- C macro IPSET_ATTR_ETHER = 17. -/
def IPSET_ATTR_ETHER : Nat := 17

/-- C macro IPSET_ATTR_DATA = 7. -/
def IPSET_ATTR_DATA : Nat := 7

/-- C macro IPSET_ATTR_IP = 1. -/
def IPSET_ATTR_IP : Nat := 1

/-- C macro IPSET_ATTR_IPADDR_IPV4 = 1. -/
def IPSET_ATTR_IPADDR_IPV4 : Nat := 1

/-- C macro IPSET_ATTR_IPADDR_IPV6 = 2. -/
def IPSET_ATTR_IPADDR_IPV6 : Nat := 2

/-- C macro IPSET_ATTR_PROTOCOL = 1. -/
def IPSET_ATTR_PROTOCOL : Nat := 1

/-- C macro IPSET_ATTR_SETNAME = 2. -/
def IPSET_ATTR_SETNAME : Nat := 2

/-- C macro IPSET_CMD_ADD = 9. -/
def IPSET_CMD_ADD : Nat := 9

/-- C macro IPSET_CMD_DEL = 10. -/
def IPSET_CMD_DEL : Nat := 10

/-- C macro IPSET_CMD_FLUSH = 4. -/
def IPSET_CMD_FLUSH : Nat := 4

/-- C macro IPSET_MAXNAMELEN = 32. -/
def IPSET_MAXNAMELEN : Nat := 32

/-- C macro IPSET_PROTOCOL = 6. -/
def IPSET_PROTOCOL : Nat := 6

/-- C macro NFNETLINK_V0 = 0. -/
def NFNETLINK_V0 : Nat := 0

/-- C macro NLA_F_NESTED = 1 << 15. -/
def NLA_F_NESTED : Nat := 2 ^ 15

/-- C macro NLA_F_NET_BYTEORDER = 1 << 14. -/
def NLA_F_NET_BYTEORDER : Nat := 2 ^ 14

/-- C macro INADDRSZ = 4 (size of `struct in_addr`). -/
def INADDRSZ : Nat := 4

/-- C macro INETHSZ = 6 (size of `struct ether_addr`). -/
def INETHSZ : Nat := 6

/-- C macro BUFF_SZ = 256: the fixed capacity of the message buffer. -/
def BUFF_SZ : Nat := 256

/-- Linux address family AF_INET = 2. -/
def AF_INET : Nat := 2

/-- Linux address family AF_INET6 = 10. -/
def AF_INET6 : Nat := 10

/-- Netlink request flag NLM_F_REQUEST = 1. -/
def NLM_F_REQUEST : Nat := 1

/-- sizeof(struct nlmsghdr) = 16 on the Linux ABI. -/
def NLMSGHDR_SZ : Nat := 16

/-- sizeof(struct my_nfgenmsg) = 4. -/
def NFGENMSG_SZ : Nat := 4

/-- sizeof(struct my_nlattr) = 4. -/
def NLATTR_SZ : Nat := 4

/-- C macro NL_ALIGN(len) = (((len)+3) & ~(3)): clearing the two low bits
of `len + 3` rounds `len` up to the next multiple of 4; on unsigned values
this equals `(len + 3) / 4 * 4`. -/
def NL_ALIGN (len : Nat) : Nat := (len + 3) / 4 * 4

/-- One attribute record written into the buffer: `off` is the byte offset
of its `struct my_nlattr` header within the message, `nla_type` and
`nla_len` the two u16 header fields, and `payload` the bytes copied
immediately after the header (the padding up to the next 4-byte boundary
stays zero from the buffer's zero-initialization). -/
structure WrittenAttr where
  off : Nat
  nla_type : Nat
  nla_len : Nat
  payload : List Nat
  deriving Repr, DecidableEq

/-- The command buffer: the `struct nlmsghdr` fields, the
`struct my_nfgenmsg` fields, and the attribute records written so far. -/
structure MsgBuf where
  nlmsg_len : Nat
  nlmsg_type : Nat
  nlmsg_flags : Nat
  nfgen_family : Nat
  version : Nat
  res_id : Nat
  attrs : List WrittenAttr
  deriving Repr, DecidableEq

/-- `add_attr(nlh, type, len, data)` from ipset.c lines 119-127: places an
attribute header at offset `NL_ALIGN(nlmsg_len)`, stores
`payload_len = NL_ALIGN(sizeof(struct my_nlattr)) + len` (a u16) into
`nla_len`, copies `len` bytes of `data` after the header, and advances
`nlmsg_len` by `NL_ALIGN(payload_len)`. -/
def add_attr (b : MsgBuf) (type : Nat) (len : Nat) (data : List Nat) : MsgBuf :=
  let off := NL_ALIGN b.nlmsg_len
  let payload_len := (NL_ALIGN NLATTR_SZ + len) % 2 ^ 16
  { b with
    attrs := b.attrs ++ [⟨off, type % 2 ^ 16, payload_len, data.take len⟩],
    nlmsg_len := b.nlmsg_len + NL_ALIGN payload_len }

/-- A store `nested->nla_len = v` through a pointer to the attribute header
at byte offset `off` (the backpatch of a nested attribute's length,
ipset.c lines 176-177). -/
def set_nla_len (b : MsgBuf) (off : Nat) (v : Nat) : MsgBuf :=
  { b with
    attrs := b.attrs.map fun a => if a.off = off then { a with nla_len := v % 2 ^ 16 } else a }

/-- The early-return outcomes of the builders and the dispatcher.
`nameTooLong` models `errno = ENAMETOOLONG; return -1`.  `nullDeref`
models `strlen(NULL)` (undefined behavior: `new_add_to_ipset` and
`new_add_mac_to_ipset` have no null check).  `parseFailure` models the
`return -1` after `inet_aton`/`ether_aton` fails, and `classification`
the final `return -1` of `add_to_ipset` when the value is neither a valid
network address nor a valid hardware address. -/
inductive CallErr where
  | nameTooLong
  | nullDeref
  | parseFailure
  | classification
  deriving Repr, DecidableEq

/-- A `struct in_addr`: exactly INADDRSZ = 4 bytes in memory. -/
structure in_addr where
  b0 : Nat
  b1 : Nat
  b2 : Nat
  b3 : Nat
  deriving Repr, DecidableEq

/-- The four memory bytes of a `struct in_addr`, in address order. -/
def in_addr.bytes (a : in_addr) : List Nat := [a.b0, a.b1, a.b2, a.b3]

/-- A `struct ether_addr`: exactly INETHSZ = 6 bytes in memory. -/
structure ether_addr where
  e0 : Nat
  e1 : Nat
  e2 : Nat
  e3 : Nat
  e4 : Nat
  e5 : Nat
  deriving Repr, DecidableEq

/-- The `ether_addr_octet` array: the six memory bytes in address order. -/
def ether_addr.ether_addr_octet (a : ether_addr) : List Nat :=
  [a.e0, a.e1, a.e2, a.e3, a.e4, a.e5]

/-- `new_add_to_ipset(setname, ipaddr, af, remove)` from ipset.c lines
138-183: rejects a too-long set name with ENAMETOOLONG before building
anything; otherwise writes the nlmsghdr (command ADD or DEL combined with
the subsystem tag, NLM_F_REQUEST), the nfgenmsg (caller's family, version
NFNETLINK_V0, resource id 0), the protocol attribute, the NUL-terminated
set-name attribute, opens the nested DATA and IP container frames
(recording their start offsets to zero-length headers), appends the
4-byte address attribute (IPv4 or IPv6 sub-type by `af`, network byte
order flag), then backpatches the two container lengths —
innermost (`nested[1]`) first, then the outer (`nested[0]`) — each as
`NL_ALIGN(nlmsg_len)` minus that frame's start offset.  A NULL `setname`
hits `strlen(NULL)`: undefined behavior, modelled as `nullDeref`. -/
def new_add_to_ipset (setname : Option (List Nat)) (ipaddr : in_addr) (af : Nat)
    (remove : Bool) : Except CallErr MsgBuf :=
  match setname with
  | none => .error .nullDeref
  | some name =>
    if name.length ≥ IPSET_MAXNAMELEN then .error .nameTooLong
    else
      let b0 : MsgBuf :=
        { nlmsg_len := NL_ALIGN NLMSGHDR_SZ
          nlmsg_type :=
            ((if remove then IPSET_CMD_DEL else IPSET_CMD_ADD) |||
              (NFNL_SUBSYS_IPSET <<< 8)) % 2 ^ 16
          nlmsg_flags := NLM_F_REQUEST
          nfgen_family := 0
          version := 0
          res_id := 0
          attrs := [] }
      let b1 :=
        { b0 with
          nlmsg_len := b0.nlmsg_len + NL_ALIGN NFGENMSG_SZ
          nfgen_family := af % 2 ^ 8
          version := NFNETLINK_V0
          res_id := 0 }
      let b2 := add_attr b1 IPSET_ATTR_PROTOCOL 1 [IPSET_PROTOCOL]
      let b3 := add_attr b2 IPSET_ATTR_SETNAME (name.length + 1) (name ++ [0])
      let off0 := NL_ALIGN b3.nlmsg_len
      let b4 :=
        { b3 with
          nlmsg_len := b3.nlmsg_len + NL_ALIGN NLATTR_SZ
          attrs := b3.attrs ++
            [WrittenAttr.mk off0 ((NLA_F_NESTED ||| IPSET_ATTR_DATA) % 2 ^ 16) 0 []] }
      let off1 := NL_ALIGN b4.nlmsg_len
      let b5 :=
        { b4 with
          nlmsg_len := b4.nlmsg_len + NL_ALIGN NLATTR_SZ
          attrs := b4.attrs ++
            [WrittenAttr.mk off1 ((NLA_F_NESTED ||| IPSET_ATTR_IP) % 2 ^ 16) 0 []] }
      let b6 := add_attr b5
        ((if af = AF_INET then IPSET_ATTR_IPADDR_IPV4 else IPSET_ATTR_IPADDR_IPV6) |||
          NLA_F_NET_BYTEORDER)
        INADDRSZ ipaddr.bytes
      let b7 := set_nla_len b6 off1 (NL_ALIGN b6.nlmsg_len - off1)
      let b8 := set_nla_len b7 off0 (NL_ALIGN b7.nlmsg_len - off0)
      .ok b8

/-- `new_add_mac_to_ipset(setname, eth_addr, af, timeout)` from ipset.c
lines 185-220: same name check, header, family sub-header, protocol and
set-name attributes, then a single flat attribute with the 6 raw hardware
address bytes.  The command is always ADD and the `timeout` parameter is
never read.  A NULL `setname` hits `strlen(NULL)`: undefined behavior,
modelled as `nullDeref`. -/
def new_add_mac_to_ipset (setname : Option (List Nat)) (eth_addr : ether_addr)
    (af : Nat) (timeout : Bool) : Except CallErr MsgBuf :=
  match setname with
  | none => .error .nullDeref
  | some name =>
    if name.length ≥ IPSET_MAXNAMELEN then .error .nameTooLong
    else
      let b0 : MsgBuf :=
        { nlmsg_len := NL_ALIGN NLMSGHDR_SZ
          nlmsg_type := (IPSET_CMD_ADD ||| (NFNL_SUBSYS_IPSET <<< 8)) % 2 ^ 16
          nlmsg_flags := NLM_F_REQUEST
          nfgen_family := 0
          version := 0
          res_id := 0
          attrs := [] }
      let b1 :=
        { b0 with
          nlmsg_len := b0.nlmsg_len + NL_ALIGN NFGENMSG_SZ
          nfgen_family := af % 2 ^ 8
          version := NFNETLINK_V0
          res_id := 0 }
      let b2 := add_attr b1 IPSET_ATTR_PROTOCOL 1 [IPSET_PROTOCOL]
      let b3 := add_attr b2 IPSET_ATTR_SETNAME (name.length + 1) (name ++ [0])
      let b4 := add_attr b3 IPSET_ATTR_ETHER INETHSZ eth_addr.ether_addr_octet
      .ok b4

/-- `flush_ipset(setname)` from ipset.c lines 222-255: rejects a NULL or
too-long set name with ENAMETOOLONG before building anything; otherwise
writes the nlmsghdr (command FLUSH combined with the subsystem tag), the
nfgenmsg with the family hard-coded to AF_INET, and the protocol and
set-name attributes. -/
def flush_ipset (setname : Option (List Nat)) : Except CallErr MsgBuf :=
  match setname with
  | none => .error .nameTooLong
  | some name =>
    if name.length ≥ IPSET_MAXNAMELEN then .error .nameTooLong
    else
      let b0 : MsgBuf :=
        { nlmsg_len := NL_ALIGN NLMSGHDR_SZ
          nlmsg_type := (IPSET_CMD_FLUSH ||| (NFNL_SUBSYS_IPSET <<< 8)) % 2 ^ 16
          nlmsg_flags := NLM_F_REQUEST
          nfgen_family := 0
          version := 0
          res_id := 0
          attrs := [] }
      let b1 :=
        { b0 with
          nlmsg_len := b0.nlmsg_len + NL_ALIGN NFGENMSG_SZ
          nfgen_family := AF_INET % 2 ^ 8
          version := NFNETLINK_V0
          res_id := 0 }
      let b2 := add_attr b1 IPSET_ATTR_PROTOCOL 1 [IPSET_PROTOCOL]
      let b3 := add_attr b2 IPSET_ATTR_SETNAME (name.length + 1) (name ++ [0])
      .ok b3

/-- The external collaborators of `add_to_ipset`: the validity predicates
`is_valid_ip` / `is_valid_mac` and the parsers `inet_aton` (to a 4-byte
`struct in_addr`; `none` models a zero return) and `ether_aton` (to a
6-byte `struct ether_addr`; `none` models a NULL return). -/
structure Classifier where
  is_valid_ip : List Nat → Bool
  is_valid_mac : List Nat → Bool
  inet_aton : List Nat → Option in_addr
  ether_aton : List Nat → Option ether_addr

/-- `add_to_ipset(setname, val, flag)` from ipset.c lines 257-277: fixes
`af = AF_INET`; if the value text is a valid network address, parses it
and calls `new_add_to_ipset` with the caller's flag; otherwise if it is a
valid hardware address, parses it and calls `new_add_mac_to_ipset` (where
the flag lands in the unread `timeout` parameter); otherwise returns -1
immediately without building or sending anything. -/
def add_to_ipset (c : Classifier) (setname : Option (List Nat)) (val : List Nat)
    (flag : Bool) : Except CallErr MsgBuf :=
  let af := AF_INET
  if c.is_valid_ip val then
    match c.inet_aton val with
    | none => .error .parseFailure
    | some addr => new_add_to_ipset setname addr af flag
  else if c.is_valid_mac val then
    match c.ether_aton val with
    | none => .error .parseFailure
    | some addr => new_add_mac_to_ipset setname addr af flag
  else
    .error .classification

/-- Outcome of one `sendto` call, as `retry_send` classifies it:
`success` is a return value other than -1; the rest are -1 with errno
EAGAIN/EWOULDBLOCK, EINTR, or anything else. -/
inductive SendOutcome where
  | success
  | eagain
  | eintr
  | other
  deriving Repr, DecidableEq

/-- `retry_send(rc)` from ipset.c lines 91-116, with the static counter
made explicit: given the counter and the outcome of the send just
attempted, returns the new counter value and whether the loop should try
again.  Success resets the counter and stops; EAGAIN sleeps 10us and
retries while the post-incremented counter was below 1000, otherwise
falls through to the reset; EINTR resets the counter but retries; any
other error resets the counter and stops. -/
def retry_send (retries : Nat) (o : SendOutcome) : Nat × Bool :=
  match o with
  | .success => (0, false)
  | .eagain => if retries < 1000 then (retries + 1, true) else (0, false)
  | .eintr => (0, true)
  | .other => (0, false)

/-- The send loop `while (retry_send(sendto(...))) ;` (ipset.c lines
179-180): runs `retry_send` over a stream of send outcomes, starting from
a given counter value, until `retry_send` says stop (or the listed stream
is exhausted).  Returns the number of `sendto` calls performed and the
final counter value. -/
def send_loop : List SendOutcome → Nat → Nat × Nat
  | [], retries => (0, retries)
  | o :: rest, retries =>
    let s := retry_send retries o
    if s.2 then
      let p := send_loop rest s.1
      (p.1 + 1, p.2)
    else
      (1, s.1)

/-- One past the highest byte offset the builder wrote through the
attribute layer: each attribute writes its 4-byte header at `off` and its
payload right after it; the fixed headers occupy the first
`NL_ALIGN(NLMSGHDR_SZ) + NL_ALIGN(NFGENMSG_SZ)` bytes. -/
def MsgBuf.write_high (b : MsgBuf) : Nat :=
  b.attrs.foldr (fun a acc => max (a.off + NLATTR_SZ + a.payload.length) acc)
    (NL_ALIGN NLMSGHDR_SZ + NL_ALIGN NFGENMSG_SZ)

/-! Arithmetic facts about `NL_ALIGN` and closed forms of the three builders. -/

/-- The aligned length is a multiple of 4. -/
theorem NL_ALIGN_mod4 (n : Nat) : NL_ALIGN n % 4 = 0 := by
  unfold NL_ALIGN; omega

/-- Aligning never shrinks. -/
theorem le_NL_ALIGN (n : Nat) : n ≤ NL_ALIGN n := by
  unfold NL_ALIGN; omega

/-- Aligning a multiple of 4 is the identity. -/
theorem NL_ALIGN_of_mod4 {n : Nat} (h : n % 4 = 0) : NL_ALIGN n = n := by
  unfold NL_ALIGN; omega

/-- Closed form of a successful `flush_ipset` call: the message for a set
name of admissible length. -/
theorem flush_ipset_ok (name : List Nat) (h : name.length < 32) :
    flush_ipset (some name) = Except.ok
      { nlmsg_len := 28 + NL_ALIGN (name.length + 5)
        nlmsg_type := (IPSET_CMD_FLUSH ||| (NFNL_SUBSYS_IPSET <<< 8)) % 2 ^ 16
        nlmsg_flags := NLM_F_REQUEST
        nfgen_family := AF_INET % 2 ^ 8
        version := NFNETLINK_V0
        res_id := 0
        attrs := [⟨20, IPSET_ATTR_PROTOCOL % 2 ^ 16, 5, [IPSET_PROTOCOL]⟩,
                  ⟨28, IPSET_ATTR_SETNAME % 2 ^ 16, name.length + 5, name ++ [0]⟩] } := by
  have hn : ¬ name.length ≥ IPSET_MAXNAMELEN := by unfold IPSET_MAXNAMELEN; omega
  have htake : (name ++ [0]).take (name.length + 1) = name ++ [0] := by
    have hl : (name ++ [0]).length = name.length + 1 := by simp
    rw [← hl, List.take_length]
  simp only [flush_ipset, if_neg hn, add_attr, htake]
  obtain ⟨n, hg⟩ : ∃ n, name.length = n := ⟨_, rfl⟩
  rw [hg] at h ⊢
  interval_cases n <;>
    simp [NL_ALIGN, NLMSGHDR_SZ, NFGENMSG_SZ, NLATTR_SZ, IPSET_PROTOCOL, IPSET_ATTR_PROTOCOL,
      IPSET_ATTR_SETNAME]

/-- Closed form of a successful `new_add_mac_to_ipset` call. -/
theorem new_add_mac_to_ipset_ok (name : List Nat) (eth : ether_addr) (af : Nat)
    (timeout : Bool) (h : name.length < 32) :
    new_add_mac_to_ipset (some name) eth af timeout = Except.ok
      { nlmsg_len := 40 + NL_ALIGN (name.length + 5)
        nlmsg_type := (IPSET_CMD_ADD ||| (NFNL_SUBSYS_IPSET <<< 8)) % 2 ^ 16
        nlmsg_flags := NLM_F_REQUEST
        nfgen_family := af % 2 ^ 8
        version := NFNETLINK_V0
        res_id := 0
        attrs := [⟨20, IPSET_ATTR_PROTOCOL % 2 ^ 16, 5, [IPSET_PROTOCOL]⟩,
                  ⟨28, IPSET_ATTR_SETNAME % 2 ^ 16, name.length + 5, name ++ [0]⟩,
                  ⟨28 + NL_ALIGN (name.length + 5), IPSET_ATTR_ETHER % 2 ^ 16, 10,
                    eth.ether_addr_octet⟩] } := by
  have hn : ¬ name.length ≥ IPSET_MAXNAMELEN := by unfold IPSET_MAXNAMELEN; omega
  have htake : (name ++ [0]).take (name.length + 1) = name ++ [0] := by
    have hl : (name ++ [0]).length = name.length + 1 := by simp
    rw [← hl, List.take_length]
  simp only [new_add_mac_to_ipset, if_neg hn, add_attr, htake]
  obtain ⟨n, hg⟩ : ∃ n, name.length = n := ⟨_, rfl⟩
  rw [hg] at h ⊢
  interval_cases n <;>
    simp [NL_ALIGN, NLMSGHDR_SZ, NFGENMSG_SZ, NLATTR_SZ, INETHSZ, IPSET_PROTOCOL,
      IPSET_ATTR_PROTOCOL, IPSET_ATTR_SETNAME, IPSET_ATTR_ETHER, ether_addr.ether_addr_octet]

/-- Closed form of a successful `new_add_to_ipset` call: in particular the
nested DATA frame begins at offset `28 + NL_ALIGN (name.length + 5)` with
backpatched length 16, the nested IP frame 4 bytes later with backpatched
length 12, and the address attribute ends the message. -/
theorem new_add_to_ipset_ok (name : List Nat) (ipaddr : in_addr) (af : Nat)
    (remove : Bool) (h : name.length < 32) :
    new_add_to_ipset (some name) ipaddr af remove = Except.ok
      { nlmsg_len := 44 + NL_ALIGN (name.length + 5)
        nlmsg_type :=
          ((if remove then IPSET_CMD_DEL else IPSET_CMD_ADD) |||
            (NFNL_SUBSYS_IPSET <<< 8)) % 2 ^ 16
        nlmsg_flags := NLM_F_REQUEST
        nfgen_family := af % 2 ^ 8
        version := NFNETLINK_V0
        res_id := 0
        attrs := [⟨20, IPSET_ATTR_PROTOCOL % 2 ^ 16, 5, [IPSET_PROTOCOL]⟩,
                  ⟨28, IPSET_ATTR_SETNAME % 2 ^ 16, name.length + 5, name ++ [0]⟩,
                  ⟨28 + NL_ALIGN (name.length + 5), (NLA_F_NESTED ||| IPSET_ATTR_DATA) % 2 ^ 16,
                    16, []⟩,
                  ⟨32 + NL_ALIGN (name.length + 5), (NLA_F_NESTED ||| IPSET_ATTR_IP) % 2 ^ 16,
                    12, []⟩,
                  ⟨36 + NL_ALIGN (name.length + 5),
                    ((if af = AF_INET then IPSET_ATTR_IPADDR_IPV4 else IPSET_ATTR_IPADDR_IPV6) |||
                      NLA_F_NET_BYTEORDER) % 2 ^ 16,
                    8, ipaddr.bytes⟩] } := by
  have hn : ¬ name.length ≥ IPSET_MAXNAMELEN := by unfold IPSET_MAXNAMELEN; omega
  have htake : (name ++ [0]).take (name.length + 1) = name ++ [0] := by
    have hl : (name ++ [0]).length = name.length + 1 := by simp
    rw [← hl, List.take_length]
  simp only [new_add_to_ipset, if_neg hn, add_attr, set_nla_len, htake]
  obtain ⟨n, hg⟩ : ∃ n, name.length = n := ⟨_, rfl⟩
  rw [hg] at h ⊢
  interval_cases n <;>
    simp [NL_ALIGN, NLMSGHDR_SZ, NFGENMSG_SZ, NLATTR_SZ, INADDRSZ, IPSET_PROTOCOL,
      IPSET_ATTR_PROTOCOL, IPSET_ATTR_SETNAME, IPSET_ATTR_DATA, IPSET_ATTR_IP,
      in_addr.bytes]

/-- A set name of length 32 or more makes `new_add_to_ipset` fail with
ENAMETOOLONG before building anything. -/
theorem new_add_to_ipset_too_long (name : List Nat) (ipaddr : in_addr) (af : Nat)
    (remove : Bool) (h : 32 ≤ name.length) :
    new_add_to_ipset (some name) ipaddr af remove = Except.error CallErr.nameTooLong := by
  have hn : name.length ≥ IPSET_MAXNAMELEN := by unfold IPSET_MAXNAMELEN; omega
  simp [new_add_to_ipset, if_pos hn]

/-- A set name of length 32 or more makes `new_add_mac_to_ipset` fail with
ENAMETOOLONG before building anything. -/
theorem new_add_mac_to_ipset_too_long (name : List Nat) (eth : ether_addr) (af : Nat)
    (timeout : Bool) (h : 32 ≤ name.length) :
    new_add_mac_to_ipset (some name) eth af timeout = Except.error CallErr.nameTooLong := by
  have hn : name.length ≥ IPSET_MAXNAMELEN := by unfold IPSET_MAXNAMELEN; omega
  simp [new_add_mac_to_ipset, if_pos hn]

/-- A set name of length 32 or more makes `flush_ipset` fail with
ENAMETOOLONG before building anything. -/
theorem flush_ipset_too_long (name : List Nat) (h : 32 ≤ name.length) :
    flush_ipset (some name) = Except.error CallErr.nameTooLong := by
  have hn : name.length ≥ IPSET_MAXNAMELEN := by unfold IPSET_MAXNAMELEN; omega
  simp [flush_ipset, if_pos hn]

/-- Closed form of the send loop when every attempt reports EAGAIN: starting
from counter value `r ≤ 1000`, with `n` blocking outcomes available the
loop either consumes all `n` (still willing to retry) or performs exactly
`1001 - r` attempts and stops with the counter reset to 0. -/
theorem send_loop_eagain (n : Nat) : ∀ r : Nat, r ≤ 1000 →
    send_loop (List.replicate n SendOutcome.eagain) r =
      if n ≤ 1000 - r then (n, r + n) else (1001 - r, 0) := by
  induction n with
  | zero =>
    intro r hr
    simp [send_loop]
  | succ k ih =>
    intro r hr
    rw [List.replicate_succ]
    simp only [send_loop, retry_send]
    by_cases hc : r < 1000
    · rw [if_pos hc]
      dsimp only
      rw [ih (r + 1) (by omega)]
      by_cases h2 : k ≤ 1000 - (r + 1)
      · rw [if_pos h2, if_pos (show k + 1 ≤ 1000 - r by omega)]
        simp
        omega
      · rw [if_neg h2, if_neg (show ¬ (k + 1 ≤ 1000 - r) by omega)]
        simp
        omega
    · rw [if_neg hc]
      rw [if_neg (show ¬ (k + 1 ≤ 1000 - r) by omega)]
      simp
      omega

/-! Claim theorems. -/

/-- C1 counterexample: the claim says the length value written into the
attribute header by `add_attr` is the 4-byte-aligned total and ≡ 0 mod 4;
but in the flush message for the one-byte set name `[97]` the two
attribute headers built by `add_attr` hold 5 (protocol attribute: header
4 + payload 1) and 6 (set-name attribute: header 4 + payload 2), and
5 % 4 ≠ 0. -/
theorem add_attr_unaligned_header_cex :
    (flush_ipset (some [97])).toOption.map (fun m => m.attrs.map WrittenAttr.nla_len) =
      some [5, 6] ∧ ¬ 5 % 4 = 0 := by
  constructor
  · rfl
  · decide

/-- C1 (amended): for every attribute appended by `add_attr`, the length
value written into the attribute header is the UNALIGNED total of the
generic attribute header plus the payload length (`NLATTR_SZ + len`, a
u16 store); it is the buffer's logical length that advances by the
4-byte-aligned total `NL_ALIGN (NLATTR_SZ + len)`, which is congruent to
0 mod 4 and is at least the unaligned header+payload length. -/
theorem add_attr_header_len_amended (b : MsgBuf) (type : Nat) (len : Nat)
    (data : List Nat) (h : NLATTR_SZ + len < 2 ^ 16) :
    (add_attr b type len data).attrs =
      b.attrs ++ [⟨NL_ALIGN b.nlmsg_len, type % 2 ^ 16, NLATTR_SZ + len, data.take len⟩] ∧
    (add_attr b type len data).nlmsg_len = b.nlmsg_len + NL_ALIGN (NLATTR_SZ + len) ∧
    NL_ALIGN (NLATTR_SZ + len) % 4 = 0 ∧
    NLATTR_SZ + len ≤ NL_ALIGN (NLATTR_SZ + len) := by
  have hm : (NL_ALIGN NLATTR_SZ + len) % 65536 = NLATTR_SZ + len := by
    unfold NL_ALIGN NLATTR_SZ at *
    omega
  refine ⟨?_, ?_, NL_ALIGN_mod4 _, le_NL_ALIGN _⟩
  · simp [add_attr, hm]
  · simp [add_attr, hm]

/-- C1 witness: the amended statement at a concrete `add_attr` call (the
protocol attribute appended to a 20-byte header). -/
theorem add_attr_header_len_amended_w :
    (add_attr ⟨20, 0, 0, 0, 0, 0, []⟩ 1 1 [6]).attrs =
      [] ++ [⟨NL_ALIGN 20, 1 % 2 ^ 16, NLATTR_SZ + 1, [6].take 1⟩] ∧
    (add_attr ⟨20, 0, 0, 0, 0, 0, []⟩ 1 1 [6]).nlmsg_len = 20 + NL_ALIGN (NLATTR_SZ + 1) ∧
    NL_ALIGN (NLATTR_SZ + 1) % 4 = 0 ∧
    NLATTR_SZ + 1 ≤ NL_ALIGN (NLATTR_SZ + 1) :=
  add_attr_header_len_amended ⟨20, 0, 0, 0, 0, 0, []⟩ 1 1 [6] (by decide)

/-- C2: for each of the two nested frames opened by the address builder —
the DATA container (attribute index 2) and the IP container (attribute
index 3) — the length backpatched at close time equals exactly the byte
span from that frame's recorded start offset to the buffer's aligned
logical length at close time; the closes happen innermost-first (ipset.c
lines 176-177), so the IP frame's patched span lies inside the DATA
frame's patched span. -/
theorem nested_frames_backpatch (name : List Nat) (ipaddr : in_addr) (af : Nat)
    (remove : Bool) (h : name.length < 32) :
    ∃ m dataA ipA,
      new_add_to_ipset (some name) ipaddr af remove = Except.ok m ∧
      m.attrs[2]? = some dataA ∧
      m.attrs[3]? = some ipA ∧
      dataA.nla_type = (NLA_F_NESTED ||| IPSET_ATTR_DATA) % 2 ^ 16 ∧
      ipA.nla_type = (NLA_F_NESTED ||| IPSET_ATTR_IP) % 2 ^ 16 ∧
      dataA.nla_len = NL_ALIGN m.nlmsg_len - dataA.off ∧
      ipA.nla_len = NL_ALIGN m.nlmsg_len - ipA.off ∧
      dataA.off < ipA.off ∧
      ipA.off + ipA.nla_len ≤ dataA.off + dataA.nla_len := by
  refine ⟨_, ⟨28 + NL_ALIGN (name.length + 5), (NLA_F_NESTED ||| IPSET_ATTR_DATA) % 2 ^ 16, 16, []⟩,
    ⟨32 + NL_ALIGN (name.length + 5), (NLA_F_NESTED ||| IPSET_ATTR_IP) % 2 ^ 16, 12, []⟩,
    new_add_to_ipset_ok name ipaddr af remove h, rfl, rfl, rfl, rfl, ?_, ?_, ?_, ?_⟩
  all_goals dsimp only
  all_goals unfold NL_ALIGN
  all_goals omega

/-- C2 witness: the backpatch property at a concrete successful call. -/
theorem nested_frames_backpatch_w :
    ∃ m dataA ipA,
      new_add_to_ipset (some [97]) ⟨192, 0, 2, 1⟩ 2 false = Except.ok m ∧
      m.attrs[2]? = some dataA ∧
      m.attrs[3]? = some ipA ∧
      dataA.nla_type = (NLA_F_NESTED ||| IPSET_ATTR_DATA) % 2 ^ 16 ∧
      ipA.nla_type = (NLA_F_NESTED ||| IPSET_ATTR_IP) % 2 ^ 16 ∧
      dataA.nla_len = NL_ALIGN m.nlmsg_len - dataA.off ∧
      ipA.nla_len = NL_ALIGN m.nlmsg_len - ipA.off ∧
      dataA.off < ipA.off ∧
      ipA.off + ipA.nla_len ≤ dataA.off + dataA.nla_len :=
  nested_frames_backpatch [97] ⟨192, 0, 2, 1⟩ 2 false (by decide)

/-- C3 counterexample: with every send attempt reporting would-block, the
loop performs 1001 sendto calls in total (the initial attempt plus 1000
budgeted retries), which exceeds the claimed bound of 1000 attempts. -/
theorem retry_budget_cex :
    send_loop (List.replicate 1001 SendOutcome.eagain) 0 = (1001, 0) ∧
    ¬ (1001 : Nat) ≤ 1000 := by
  constructor
  · rw [send_loop_eagain 1001 0 (by omega)]
    norm_num
  · omega

/-- C3 (amended): if every send attempt fails with transient backpressure
(would-block), the send loop performs at most 1001 send attempts in total
— the initial attempt plus the budget of 1000 retries — before giving up,
and the shared retry counter is reset to 0 when it gives up. -/
theorem retry_budget_amended (n : Nat) :
    (send_loop (List.replicate n SendOutcome.eagain) 0).1 ≤ 1001 ∧
    (1001 ≤ n → send_loop (List.replicate n SendOutcome.eagain) 0 = (1001, 0)) := by
  rw [send_loop_eagain n 0 (by omega)]
  constructor
  · split
    · simp
      omega
    · simp
  · intro hn
    rw [if_neg (by omega)]

/-- C4 counterexample: with a classifier that accepts the value as a valid
network address, `add_to_ipset` (the public apply operation) with a NULL
set name does not reject with the NameTooLong condition: it reaches
`strlen(NULL)` inside `new_add_to_ipset` (undefined behavior, modelled as
`nullDeref`), because only `flush_ipset` checks the name for NULL. -/
theorem apply_null_name_cex :
    add_to_ipset ⟨fun _ => true, fun _ => false, fun _ => some ⟨192, 0, 2, 1⟩, fun _ => none⟩
        none [49] false = Except.error CallErr.nullDeref ∧
    CallErr.nullDeref ≠ CallErr.nameTooLong := by
  constructor
  · rfl
  · decide

/-- C4 (amended): a null set name is rejected with the NameTooLong
condition before any encoding by `flush_ipset` only; `add_to_ipset` has no
null check — with a null name it fails classification or parse before
touching the name, or reaches `strlen(NULL)` in a builder (undefined
behavior, modelled `nullDeref`), and in no case produces NameTooLong; in
every case it returns failure with no message built and no socket
write. -/
theorem null_name_handling (c : Classifier) (val : List Nat) (flag : Bool) :
    flush_ipset none = Except.error CallErr.nameTooLong ∧
    (add_to_ipset c none val flag = Except.error CallErr.nullDeref ∨
     add_to_ipset c none val flag = Except.error CallErr.parseFailure ∨
     add_to_ipset c none val flag = Except.error CallErr.classification) := by
  refine ⟨rfl, ?_⟩
  simp only [add_to_ipset]
  by_cases h1 : c.is_valid_ip val = true
  · rw [if_pos h1]
    cases hp : c.inet_aton val with
    | none => exact Or.inr (Or.inl rfl)
    | some a => exact Or.inl rfl
  · rw [if_neg h1]
    by_cases h2 : c.is_valid_mac val = true
    · rw [if_pos h2]
      cases hp : c.ether_aton val with
      | none => exact Or.inr (Or.inl rfl)
      | some a => exact Or.inl rfl
    · rw [if_neg h2]
      exact Or.inr (Or.inr rfl)

/-- C5: for every builder entry point (address add/remove, hardware-address
add, flush), a set name of length at most 31 bytes passes the name check
and a message is built, while a set name of length 32 or more is rejected
with the NameTooLong condition and returns failure before any socket
write. -/
theorem name_length_gate (name : List Nat) (ipaddr : in_addr) (eth : ether_addr)
    (af : Nat) (remove : Bool) (timeout : Bool) :
    (name.length ≤ 31 →
      (∃ m, new_add_to_ipset (some name) ipaddr af remove = Except.ok m) ∧
      (∃ m, new_add_mac_to_ipset (some name) eth af timeout = Except.ok m) ∧
      (∃ m, flush_ipset (some name) = Except.ok m)) ∧
    (32 ≤ name.length →
      new_add_to_ipset (some name) ipaddr af remove = Except.error CallErr.nameTooLong ∧
      new_add_mac_to_ipset (some name) eth af timeout = Except.error CallErr.nameTooLong ∧
      flush_ipset (some name) = Except.error CallErr.nameTooLong) := by
  constructor
  · intro h
    exact ⟨⟨_, new_add_to_ipset_ok name ipaddr af remove (by omega)⟩,
           ⟨_, new_add_mac_to_ipset_ok name eth af timeout (by omega)⟩,
           ⟨_, flush_ipset_ok name (by omega)⟩⟩
  · intro h
    exact ⟨new_add_to_ipset_too_long name ipaddr af remove h,
           new_add_mac_to_ipset_too_long name eth af timeout h,
           flush_ipset_too_long name h⟩

/-- C6: every message built by the flush operation carries the IPv4
address-family code AF_INET in its family sub-header, for every set name,
regardless of any address-family context (the command code being FLUSH
combined with the subsystem tag). -/
theorem flush_family_ipv4 (name : List Nat) (m : MsgBuf)
    (h : flush_ipset (some name) = Except.ok m) :
    m.nfgen_family = AF_INET ∧
    m.nlmsg_type = (IPSET_CMD_FLUSH ||| (NFNL_SUBSYS_IPSET <<< 8)) % 2 ^ 16 := by
  by_cases hl : name.length < 32
  · rw [flush_ipset_ok name hl] at h
    injection h with h
    subst h
    exact ⟨rfl, rfl⟩
  · rw [flush_ipset_too_long name (by omega)] at h
    simp at h

/-- C6 witness: the flush message for the set name `[97]` carries
AF_INET. -/
theorem flush_family_ipv4_w :
    ({ nlmsg_len := 36
       nlmsg_type := (IPSET_CMD_FLUSH ||| (NFNL_SUBSYS_IPSET <<< 8)) % 2 ^ 16
       nlmsg_flags := 1, nfgen_family := 2, version := 0, res_id := 0
       attrs := [⟨20, 1, 5, [6]⟩, ⟨28, 2, 6, [97, 0]⟩] } : MsgBuf).nfgen_family = AF_INET ∧
    ({ nlmsg_len := 36
       nlmsg_type := (IPSET_CMD_FLUSH ||| (NFNL_SUBSYS_IPSET <<< 8)) % 2 ^ 16
       nlmsg_flags := 1, nfgen_family := 2, version := 0, res_id := 0
       attrs := [⟨20, 1, 5, [6]⟩, ⟨28, 2, 6, [97, 0]⟩] } : MsgBuf).nlmsg_type =
      (IPSET_CMD_FLUSH ||| (NFNL_SUBSYS_IPSET <<< 8)) % 2 ^ 16 :=
  flush_family_ipv4 [97]
    { nlmsg_len := 36
      nlmsg_type := (IPSET_CMD_FLUSH ||| (NFNL_SUBSYS_IPSET <<< 8)) % 2 ^ 16
      nlmsg_flags := 1, nfgen_family := 2, version := 0, res_id := 0
      attrs := [⟨20, 1, 5, [6]⟩, ⟨28, 2, 6, [97, 0]⟩] } rfl

/-- C7: the hardware-address builder always sets the command code to ADD
combined with the subsystem tag, for every input: the remove/timeout
parameter it receives has no effect on any byte of the built message (the
whole result is independent of it). -/
theorem mac_builder_fixed_add (setname : Option (List Nat)) (eth : ether_addr)
    (af : Nat) (t1 : Bool) (t2 : Bool) :
    new_add_mac_to_ipset setname eth af t1 = new_add_mac_to_ipset setname eth af t2 ∧
    ∀ m, new_add_mac_to_ipset setname eth af t1 = Except.ok m →
      m.nlmsg_type = (IPSET_CMD_ADD ||| (NFNL_SUBSYS_IPSET <<< 8)) % 2 ^ 16 := by
  constructor
  · rfl
  · intro m hm
    cases setname with
    | none => simp [new_add_mac_to_ipset] at hm
    | some name =>
      by_cases hl : name.length < 32
      · rw [new_add_mac_to_ipset_ok name eth af t1 hl] at hm
        injection hm with hm
        subst hm
        rfl
      · rw [new_add_mac_to_ipset_too_long name eth af t1 (by omega)] at hm
        simp at hm

/-- C8: for every value text that the external validators classify as
neither a valid network address nor a valid hardware address,
`add_to_ipset` returns failure immediately with the classification error,
without building a message and without any socket write. -/
theorem classification_gate (c : Classifier) (setname : Option (List Nat))
    (val : List Nat) (flag : Bool) (h1 : c.is_valid_ip val = false)
    (h2 : c.is_valid_mac val = false) :
    add_to_ipset c setname val flag = Except.error CallErr.classification := by
  simp [add_to_ipset, h1, h2]

/-- C8 witness: a concrete classifier that rejects a concrete value. -/
theorem classification_gate_w :
    add_to_ipset ⟨fun _ => false, fun _ => false, fun _ => none, fun _ => none⟩
      (some [98]) [120] false = Except.error CallErr.classification :=
  classification_gate ⟨fun _ => false, fun _ => false, fun _ => none, fun _ => none⟩
    (some [98]) [120] false rfl rfl

/-- C9: for every set name whose length is under the 32-byte ceiling, each
of the three builders writes every byte within the 256-byte buffer
capacity (`write_high ≤ BUFF_SZ`) and the final logical message length
never exceeds BUFF_SZ, so the silent-overrun failure mode is unreachable
under the name-length precondition. -/
theorem buffer_capacity (name : List Nat) (ipaddr : in_addr) (eth : ether_addr)
    (af : Nat) (remove : Bool) (timeout : Bool) (h : name.length < 32) :
    (∀ m, new_add_to_ipset (some name) ipaddr af remove = Except.ok m →
      m.write_high ≤ BUFF_SZ ∧ m.nlmsg_len ≤ BUFF_SZ) ∧
    (∀ m, new_add_mac_to_ipset (some name) eth af timeout = Except.ok m →
      m.write_high ≤ BUFF_SZ ∧ m.nlmsg_len ≤ BUFF_SZ) ∧
    (∀ m, flush_ipset (some name) = Except.ok m →
      m.write_high ≤ BUFF_SZ ∧ m.nlmsg_len ≤ BUFF_SZ) := by
  refine ⟨?_, ?_, ?_⟩
  · intro m hm
    rw [new_add_to_ipset_ok name ipaddr af remove h] at hm
    injection hm with hm
    subst hm
    constructor
    · simp [MsgBuf.write_high, in_addr.bytes]
      unfold NL_ALIGN NLATTR_SZ NLMSGHDR_SZ NFGENMSG_SZ BUFF_SZ
      omega
    · dsimp only
      unfold NL_ALIGN BUFF_SZ
      omega
  · intro m hm
    rw [new_add_mac_to_ipset_ok name eth af timeout h] at hm
    injection hm with hm
    subst hm
    constructor
    · simp [MsgBuf.write_high, ether_addr.ether_addr_octet]
      unfold NL_ALIGN NLATTR_SZ NLMSGHDR_SZ NFGENMSG_SZ BUFF_SZ
      omega
    · dsimp only
      unfold NL_ALIGN BUFF_SZ
      omega
  · intro m hm
    rw [flush_ipset_ok name h] at hm
    injection hm with hm
    subst hm
    constructor
    · simp [MsgBuf.write_high]
      unfold NL_ALIGN NLATTR_SZ NLMSGHDR_SZ NFGENMSG_SZ BUFF_SZ
      omega
    · dsimp only
      unfold NL_ALIGN BUFF_SZ
      omega

/-- C9 witness: the capacity bounds at a concrete name and addresses. -/
theorem buffer_capacity_w :
    (∀ m, new_add_to_ipset (some [97]) ⟨192, 0, 2, 1⟩ 2 false = Except.ok m →
      m.write_high ≤ BUFF_SZ ∧ m.nlmsg_len ≤ BUFF_SZ) ∧
    (∀ m, new_add_mac_to_ipset (some [97]) ⟨1, 2, 3, 4, 5, 6⟩ 2 false = Except.ok m →
      m.write_high ≤ BUFF_SZ ∧ m.nlmsg_len ≤ BUFF_SZ) ∧
    (∀ m, flush_ipset (some [97]) = Except.ok m →
      m.write_high ≤ BUFF_SZ ∧ m.nlmsg_len ≤ BUFF_SZ) :=
  buffer_capacity [97] ⟨192, 0, 2, 1⟩ ⟨1, 2, 3, 4, 5, 6⟩ 2 false false (by decide)

/-- C10: for every input, the public dispatcher `add_to_ipset` passes the
IPv4 address family AF_INET to both builders; consequently the IPv6
attribute-type branch of the address builder is unreachable through the
public interface — on the address path the final attribute always carries
the IPv4 sub-type (network-byte-order flag set) and its encoded payload
is exactly the 4 bytes of the parsed `struct in_addr`. -/
theorem dispatcher_ipv4_only (c : Classifier) (setname : Option (List Nat))
    (val : List Nat) (flag : Bool) :
    (c.is_valid_ip val = true →
      ∀ addr, c.inet_aton val = some addr →
        add_to_ipset c setname val flag = new_add_to_ipset setname addr AF_INET flag ∧
        ∀ m, add_to_ipset c setname val flag = Except.ok m →
          ∃ a, m.attrs.getLast? = some a ∧
            a.nla_type = (IPSET_ATTR_IPADDR_IPV4 ||| NLA_F_NET_BYTEORDER) % 2 ^ 16 ∧
            a.payload = addr.bytes ∧
            a.payload.length = 4) ∧
    (c.is_valid_ip val = false → c.is_valid_mac val = true →
      ∀ addr, c.ether_aton val = some addr →
        add_to_ipset c setname val flag = new_add_mac_to_ipset setname addr AF_INET flag) := by
  constructor
  · intro h1 addr ha
    have heq : add_to_ipset c setname val flag = new_add_to_ipset setname addr AF_INET flag := by
      simp [add_to_ipset, h1, ha]
    refine ⟨heq, ?_⟩
    intro m hm
    rw [heq] at hm
    cases setname with
    | none => simp [new_add_to_ipset] at hm
    | some name =>
      by_cases hl : name.length < 32
      · rw [new_add_to_ipset_ok name addr AF_INET flag hl] at hm
        injection hm with hm
        subst hm
        refine ⟨⟨36 + NL_ALIGN (name.length + 5),
          ((if AF_INET = AF_INET then IPSET_ATTR_IPADDR_IPV4 else IPSET_ATTR_IPADDR_IPV6) |||
            NLA_F_NET_BYTEORDER) % 2 ^ 16, 8, addr.bytes⟩, rfl, ?_, rfl, ?_⟩
        · simp
        · simp [in_addr.bytes]
      · rw [new_add_to_ipset_too_long name addr AF_INET flag (by omega)] at hm
        simp at hm
  · intro h1 h2 addr ha
    simp [add_to_ipset, h1, h2, ha]

end Ipset
